import Mathlib

/-!
Shallow embedding of the `@cityssm/activedirectory-authenticate` package
(the `ActiveDirectoryAuthenticate` class of `src/unnamed/part_000`, together
with `src/utilities.ts` and `src/errorTypes.ts`), and theorems about the
specification's claims.

The LDAP client (`ldapts`) and the cache (`@cacheable/node-cache`) are
external collaborators.  The client is embedded as an abstract `Directory`
behaviour giving the outcome of every `bind` and `search` call; `unbind` is
the collaborator's session close and is modelled as an infallible effect,
matching the specification's scoping of the wire protocol as out of scope.
Timestamps are abstract naturals; the cache TTL is in the same unit.
-/

namespace ADAuth

/-! ## String helpers (JavaScript semantics) -/

/-- JavaScript `String.prototype.split` with a one-character separator,
on the character list of the string.  `split` never returns an empty list:
a string without the separator yields the one-element list `[s]`. -/
def splitOnChar (c : Char) : List Char → List (List Char)
  | [] => [[]]
  | a :: rest =>
    if a = c then
      [] :: splitOnChar c rest
    else
      match splitOnChar c rest with
      | [] => [[a]]
      | h :: t => (a :: h) :: t

/-- One step of JavaScript `String.prototype.includes`: does `needle`
occur as a contiguous run inside `haystack`? -/
def inclAux (needle : List Char) : List Char → Bool
  | [] => needle.isEmpty
  | a :: rest => needle.isPrefixOf (a :: rest) || inclAux needle rest

/-- JavaScript `haystack.includes(needle)` for strings. -/
def strIncludes (haystack needle : String) : Bool :=
  inclAux needle.data haystack.data

/-! ## `src/utilities.ts` -/

/-- `getUserNamePart` from `src/utilities.ts`: if the user name includes
an `'@'`, split by `'@'` and return the first part; otherwise split by
backslash and return the second part when there are exactly two parts,
else the first part. -/
def getUserNamePart (userName : String) : String :=
  if userName.data.contains '@' then
    String.mk ((splitOnChar '@' userName.data).headD [])
  else
    let parts := splitOnChar '\\' userName.data
    String.mk (if parts.length = 2 then parts.getD 1 [] else parts.headD [])

/-! ## `src/errorTypes.ts` -/

/-- `activeDirectoryErrors` from `src/errorTypes.ts`: directory status
marker to error-type name. -/
def activeDirectoryErrors : List (String × String) :=
  [("52e", "LOGON_FAILURE"),
   ("525", "NO_SUCH_USER"),
   ("530", "INVALID_LOGIN_HOURS"),
   ("531", "INVALID_WORKSTATION"),
   ("532", "PASSWORD_EXPIRED"),
   ("533", "ACCOUNT_DISABLED"),
   ("534", "INVALID_LOGIN_TYPE"),
   ("701", "ACCOUNT_EXPIRED"),
   ("773", "PASSWORD_MUST_CHANGE"),
   ("775", "ACCOUNT_LOCKED_OUT")]

/-- `adLdapBindErrors` from `src/errorTypes.ts`, in insertion order, which
is the iteration order of `Object.entries` (the keys contain spaces, so
they are not array indices and keep insertion order). -/
def adLdapBindErrors : List (String × String) :=
  [(" data 52e, ", "LOGON_FAILURE"),
   (" data 525, ", "NO_SUCH_USER"),
   (" data 530, ", "INVALID_LOGIN_HOURS"),
   (" data 531, ", "INVALID_WORKSTATION"),
   (" data 532, ", "PASSWORD_EXPIRED"),
   (" data 533, ", "ACCOUNT_DISABLED"),
   (" data 534, ", "INVALID_LOGIN_TYPE"),
   (" data 701, ", "ACCOUNT_EXPIRED"),
   (" data 773, ", "PASSWORD_MUST_CHANGE"),
   (" data 775, ", "ACCOUNT_LOCKED_OUT")]

/-- The closed `ActiveDirectoryAuthenticateErrorType` union from
`src/errorTypes.ts`. -/
def validErrorTypes : List String :=
  ["ACCOUNT_NOT_FOUND", "AUTHENTICATION_FAILED", "CONFIGURATION_ERROR",
   "EMPTY_PASSWORD", "EMPTY_USER_NAME", "LDAP_SEARCH_FAILED",
   "LOGON_FAILURE", "NO_SUCH_USER", "INVALID_LOGIN_HOURS",
   "INVALID_WORKSTATION", "PASSWORD_EXPIRED", "ACCOUNT_DISABLED",
   "INVALID_LOGIN_TYPE", "ACCOUNT_EXPIRED", "PASSWORD_MUST_CHANGE",
   "ACCOUNT_LOCKED_OUT"]

/-! ## The `ldapts` collaborator -/

/-- An error raised by the LDAP client: whether it is an
`InvalidCredentialsError`, and its message. -/
structure LdapError where
  isInvalidCredentials : Bool
  message : String
deriving DecidableEq, Repr

/-- A directory search entry; only its distinguished name is consumed. -/
structure SearchEntry where
  dn : String
deriving DecidableEq, Repr

/-- Abstract behaviour of the directory collaborator: the outcome of any
`client.bind(dn, password)` (`none` = success) and of any
`client.search(baseDN, filter on sAMAccountName)`. -/
structure Directory where
  bindResult : String → String → Option LdapError
  searchResult : String → String → Except LdapError (List SearchEntry)

/-- Observable directory-session interactions of one `authenticate` call,
in order of occurrence. -/
inductive Event where
  | bind (dn password : String)
  | search (baseDN sAMAccountName : String)
  | unbind
deriving DecidableEq, Repr

/-! ## The `@cacheable/node-cache` collaborator

Modelled from the spec: the Bind DN Cache contract of section 4.2 — a
time-bounded key/value store with lazy expiry (an entry is absent once
its expiry time is reached), overwriting insertion and a clear-all
operation.  The package itself is an external dependency whose source is
not part of this repository. -/

structure NodeCache where
  stdTTL : Nat
  entries : List (String × String × Nat)
deriving DecidableEq, Repr

/-- Read a key at time `now`: the first entry for the key, unless it has
reached its expiry time (lazy expiry). -/
def NodeCache.get (c : NodeCache) (now : Nat) (key : String) : Option String :=
  match c.entries.find? (fun e => e.fst == key) with
  | some (_, v, exp) => if now < exp then some v else none
  | none => none

/-- Insert a key at time `now`, overwriting any existing entry for the
same key and refreshing its expiry to `now + stdTTL`. -/
def NodeCache.set (c : NodeCache) (now : Nat) (key value : String) : NodeCache :=
  { c with entries :=
      (key, value, now + c.stdTTL) :: c.entries.filter (fun e => !(e.fst == key)) }

/-- `flushAll`: remove every entry. -/
def NodeCache.flushAll (c : NodeCache) : NodeCache :=
  { c with entries := [] }

/-! ## The `ActiveDirectoryAuthenticate` class (`src/unnamed/part_000`) -/

/-- The `url` field of the `ldapts` `ClientOptions` consumed by the class. -/
structure LdapClientOptions where
  url : String
deriving DecidableEq, Repr

/-- `ActiveDirectoryAuthenticateConfig`. -/
structure ActiveDirectoryAuthenticateConfig where
  baseDN : String
  bindUserDN : String
  bindUserPassword : String
  cacheUserBindDNs : Option Bool
deriving DecidableEq, Repr

/-- The immutable fields of an `ActiveDirectoryAuthenticate` instance. -/
structure ActiveDirectoryAuthenticate where
  clientOptions : LdapClientOptions
  config : ActiveDirectoryAuthenticateConfig
deriving DecidableEq, Repr

/-- The constructor's cache initialisation: a `NodeCache` with
`stdTTL := 60` when `cacheUserBindDNs ?? false`, else no cache. -/
def mkUserBindDNsCache (config : ActiveDirectoryAuthenticateConfig) :
    Option NodeCache :=
  if config.cacheUserBindDNs.getD false then
    some { stdTTL := 60, entries := [] }
  else
    none

/-- The `error` payload of a result: either a caught LDAP error or a
locally constructed `new Error(message)`. -/
inductive ErrValue where
  | ldap (e : LdapError)
  | message (s : String)
deriving DecidableEq, Repr

/-- `ActiveDirectoryAuthenticateResult`: the tagged union returned by
`authenticate`. -/
inductive AuthResult where
  | ok (bindUserDN : String) (sAMAccountName : String)
  | err (bindUserDN : String) (error : Option ErrValue) (errorType : String)
deriving DecidableEq, Repr

def AuthResult.success : AuthResult → Bool
  | .ok _ _ => true
  | .err _ _ _ => false

def AuthResult.bindUserDN : AuthResult → String
  | .ok dn _ => dn
  | .err dn _ _ => dn

def AuthResult.errorType? : AuthResult → Option String
  | .ok _ _ => none
  | .err _ _ t => some t

def AuthResult.errorValue? : AuthResult → Option ErrValue
  | .ok _ _ => none
  | .err _ e _ => e

/-- The classification loop of `#tryUserBind`: starting from
`AUTHENTICATION_FAILED`, walk the `adLdapBindErrors` entries and stop at
the first whose message piece the error message includes. -/
def lookupBindErrorType (msg : String) : List (String × String) → String
  | [] => "AUTHENTICATION_FAILED"
  | (piece, kind) :: rest =>
    if strIncludes msg piece then kind else lookupBindErrorType msg rest

/-- The error-type computation of the `catch` block of `#tryUserBind`:
the table lookup applies only to an `InvalidCredentialsError`. -/
def classifyBindError (e : LdapError) : String :=
  if e.isInvalidCredentials then
    lookupBindErrorType e.message adLdapBindErrors
  else
    "AUTHENTICATION_FAILED"

/-- The message of the `ACCOUNT_NOT_FOUND` error synthesized by
`#findUserBindDN`. -/
def notFoundMessage (sAMAccountName : String) : String :=
  "User with sAMAccountName \"" ++ sAMAccountName ++ "\" not found."

/-- The message of the `CONFIGURATION_ERROR` error. -/
def urlNotConfiguredMessage : String :=
  "LDAP client URL is not configured."

/-- Outcome of `#findUserBindDN`: either a ready failure result, or the
resolved user bind DN. -/
inductive FindUserBindDNResult where
  | failure (result : AuthResult)
  | ok (userBindDN : String)
deriving DecidableEq, Repr

/-- `#findUserBindDN`: bind as the configured service user, search the
base DN for `sAMAccountName`, classify every failure, and always unbind.
The second component records the directory interactions. -/
def findUserBindDN (auth : ActiveDirectoryAuthenticate) (dir : Directory)
    (sAMAccountName : String) : FindUserBindDNResult × List Event :=
  let svcDN := auth.config.bindUserDN
  let svcPw := auth.config.bindUserPassword
  match dir.bindResult svcDN svcPw with
  | some e =>
    (.failure (.err svcDN (some (.ldap e)) "LDAP_SEARCH_FAILED"),
     [.bind svcDN svcPw, .unbind])
  | none =>
    match dir.searchResult auth.config.baseDN sAMAccountName with
    | .error e =>
      (.failure (.err svcDN (some (.ldap e)) "LDAP_SEARCH_FAILED"),
       [.bind svcDN svcPw, .search auth.config.baseDN sAMAccountName, .unbind])
    | .ok [] =>
      (.failure (.err svcDN (some (.message (notFoundMessage sAMAccountName)))
          "ACCOUNT_NOT_FOUND"),
       [.bind svcDN svcPw, .search auth.config.baseDN sAMAccountName, .unbind])
    | .ok (entry :: _) =>
      (.ok entry.dn,
       [.bind svcDN svcPw, .search auth.config.baseDN sAMAccountName, .unbind])

/-- `#tryUserBind`: bind as the resolved user; on failure classify the
error; always unbind. -/
def tryUserBind (dir : Directory) (userBindDN password sAMAccountName : String) :
    AuthResult × List Event :=
  match dir.bindResult userBindDN password with
  | none =>
    (.ok userBindDN sAMAccountName, [.bind userBindDN password, .unbind])
  | some e =>
    (.err userBindDN (some (.ldap e)) (classifyBindError e),
     [.bind userBindDN password, .unbind])

/-- `authenticate(userName, password)`.  The mutable cache state is passed
in and returned; `now` is the call's timestamp.  Returns the result, the
cache state after the call, and the directory interactions. -/
def authenticate (auth : ActiveDirectoryAuthenticate) (dir : Directory)
    (cache : Option NodeCache) (now : Nat) (userName password : String) :
    AuthResult × Option NodeCache × List Event :=
  if auth.clientOptions.url = "" then
    (.err "" (some (.message urlNotConfiguredMessage)) "CONFIGURATION_ERROR",
     cache, [])
  else if userName = "" ∨ password = "" then
    (.err "" none (if userName = "" then "EMPTY_USER_NAME" else "EMPTY_PASSWORD"),
     cache, [])
  else
    let sAMAccountName := getUserNamePart userName
    match cache.bind (fun c => c.get now sAMAccountName) with
    | some userBindDN =>
      let r := tryUserBind dir userBindDN password sAMAccountName
      (r.fst, cache, r.snd)
    | none =>
      match findUserBindDN auth dir sAMAccountName with
      | (.failure result, ev) => (result, cache, ev)
      | (.ok userBindDN, ev) =>
        let cache' :=
          if auth.config.cacheUserBindDNs.getD false then
            cache.map (fun c => c.set now sAMAccountName userBindDN)
          else cache
        let r := tryUserBind dir userBindDN password sAMAccountName
        (r.fst, cache', ev ++ r.snd)

/-- `clearCache()`: flush the cache when it exists. -/
def clearCache (cache : Option NodeCache) : Option NodeCache :=
  cache.map NodeCache.flushAll

/-- The Error Classifier as the specification words it: on an
invalid-credentials bind error, scan the fixed marker table and return
the kind of the first marker found in the message; otherwise, and when no
marker matches, the generic `AUTHENTICATION_FAILED`. -/
def specClassifyBindError (e : LdapError) : String :=
  if e.isInvalidCredentials then
    ((adLdapBindErrors.find? fun p => strIncludes e.message p.fst).map
        Prod.snd).getD "AUTHENTICATION_FAILED"
  else
    "AUTHENTICATION_FAILED"

/-! ## Helper lemmas -/

theorem splitOnChar_ne_nil (c : Char) (s : List Char) : splitOnChar c s ≠ [] := by
  induction s with
  | nil => simp [splitOnChar]
  | cons a rest ih =>
    simp only [splitOnChar]
    split
    · simp
    · split
      · simp
      · simp

theorem headD_splitOnChar (c : Char) (s : List Char) :
    (splitOnChar c s).headD [] = s.takeWhile (fun a => !(a == c)) := by
  induction s with
  | nil => simp [splitOnChar]
  | cons a rest ih =>
    simp only [splitOnChar, List.takeWhile]
    by_cases h : a = c
    · simp [h]
    · rw [if_neg h]
      have hne := splitOnChar_ne_nil c rest
      cases hrec : splitOnChar c rest with
      | nil => exact absurd hrec hne
      | cons h0 t0 =>
        rw [hrec] at ih
        simp only [List.headD] at ih
        have hbeq : (a == c) = false := by simp [h]
        simp [hbeq, ih]

theorem length_splitOnChar (c : Char) (s : List Char) :
    (splitOnChar c s).length = s.count c + 1 := by
  induction s with
  | nil => simp [splitOnChar]
  | cons a rest ih =>
    simp only [splitOnChar]
    by_cases h : a = c
    · simp [h, List.count_cons, ih]
    · rw [if_neg h]
      have hne := splitOnChar_ne_nil c rest
      cases hrec : splitOnChar c rest with
      | nil => exact absurd hrec hne
      | cons h0 t0 =>
        rw [hrec] at ih
        simp only [List.length_cons] at ih ⊢
        simp [List.count_cons, h, ih]

theorem splitOnChar_not_contains (c : Char) (s : List Char)
    (h : s.contains c = false) : splitOnChar c s = [s] := by
  induction s with
  | nil => simp [splitOnChar]
  | cons a rest ih =>
    simp only [List.contains_cons, Bool.or_eq_false_iff] at h
    have hac : ¬(a = c) := by
      intro hh
      subst hh
      simp at h
    rw [splitOnChar, if_neg hac, ih h.2]

theorem splitOnChar_count_one (c : Char) (s : List Char)
    (h : s.count c = 1) :
    splitOnChar c s =
      [s.takeWhile (fun a => !(a == c)), (s.dropWhile (fun a => !(a == c))).tail] := by
  induction s with
  | nil => simp at h
  | cons a rest ih =>
    by_cases hac : a = c
    · subst hac
      have hrest : rest.count a = 0 := by
        simpa [List.count_cons] using h
      have hnc : rest.contains a = false := by
        rw [List.count_eq_zero] at hrest
        simpa using hrest
      rw [splitOnChar, if_pos rfl, splitOnChar_not_contains a rest hnc]
      simp [List.takeWhile, List.dropWhile]
    · have hrest : rest.count c = 1 := by
        simpa [List.count_cons, hac] using h
      have := ih hrest
      rw [splitOnChar, if_neg hac, this]
      have hbeq : (a == c) = false := by simp [hac]
      simp [List.takeWhile, List.dropWhile, hbeq]

theorem isPrefixOf_append_self (l post : List Char) :
    l.isPrefixOf (l ++ post) = true := by
  induction l with
  | nil => simp [List.isPrefixOf]
  | cons a rest ih => simp [List.isPrefixOf, ih]

theorem inclAux_append_middle (pre mid post : List Char) :
    inclAux mid (pre ++ (mid ++ post)) = true := by
  induction pre with
  | nil =>
    simp only [List.nil_append]
    cases hmp : mid ++ post with
    | nil =>
      have : mid = [] := by
        cases mid with
        | nil => rfl
        | cons x xs => simp at hmp
      simp [inclAux, this]
    | cons a t =>
      rw [inclAux, ← hmp, isPrefixOf_append_self]
      simp
  | cons a pre' ih =>
    rw [List.cons_append, inclAux, ih]
    simp

theorem strIncludes_append_middle (x y z : String) :
    strIncludes (x ++ y ++ z) y = true := by
  have : (x ++ y ++ z).data = x.data ++ (y.data ++ z.data) := by
    rw [String.data_append, String.data_append, List.append_assoc]
  rw [strIncludes, this]
  exact inclAux_append_middle x.data y.data z.data

theorem lookupBindErrorType_eq_find (msg : String) (l : List (String × String)) :
    lookupBindErrorType msg l =
      ((l.find? fun p => strIncludes msg p.fst).map Prod.snd).getD
        "AUTHENTICATION_FAILED" := by
  induction l with
  | nil => simp [lookupBindErrorType]
  | cons hd tl ih =>
    obtain ⟨piece, kind⟩ := hd
    rw [lookupBindErrorType]
    by_cases h : strIncludes msg piece = true
    · rw [if_pos h,
        List.find?_cons_of_pos
          (p := fun q : String × String => strIncludes msg q.fst) _ h]
      simp
    · rw [if_neg h, ih,
        List.find?_cons_of_neg
          (p := fun q : String × String => strIncludes msg q.fst)]
      simpa using h

theorem lookupBindErrorType_mem (msg : String) (l : List (String × String)) :
    lookupBindErrorType msg l ∈ "AUTHENTICATION_FAILED" :: l.map Prod.snd := by
  induction l with
  | nil => simp [lookupBindErrorType]
  | cons hd tl ih =>
    obtain ⟨piece, kind⟩ := hd
    rw [lookupBindErrorType]
    by_cases h : strIncludes msg piece = true
    · rw [if_pos h]
      simp
    · rw [if_neg h]
      rcases List.mem_cons.mp ih with h1 | h1
      · simp [h1]
      · simp only [List.map_cons, List.mem_cons]
        tauto

theorem classifyBindError_eq_spec (e : LdapError) :
    classifyBindError e = specClassifyBindError e := by
  rw [classifyBindError, specClassifyBindError]
  by_cases h : e.isInvalidCredentials = true
  · rw [if_pos h, if_pos h, lookupBindErrorType_eq_find]
  · rw [if_neg h, if_neg h]

theorem classifyBindError_mem_valid (e : LdapError) :
    classifyBindError e ∈ validErrorTypes := by
  have hsub : ∀ t ∈ ("AUTHENTICATION_FAILED" :: adLdapBindErrors.map Prod.snd),
      t ∈ validErrorTypes := by decide
  rw [classifyBindError]
  by_cases h : e.isInvalidCredentials = true
  · rw [if_pos h]
    exact hsub _ (lookupBindErrorType_mem e.message adLdapBindErrors)
  · rw [if_neg h]
    decide

theorem classifyBindError_ne_resolver (e : LdapError) :
    classifyBindError e ≠ "LDAP_SEARCH_FAILED" ∧
      classifyBindError e ≠ "ACCOUNT_NOT_FOUND" ∧
      classifyBindError e ≠ "EMPTY_USER_NAME" := by
  have hsub : ∀ t ∈ ("AUTHENTICATION_FAILED" :: adLdapBindErrors.map Prod.snd),
      t ≠ "LDAP_SEARCH_FAILED" ∧ t ≠ "ACCOUNT_NOT_FOUND" ∧
        t ≠ "EMPTY_USER_NAME" := by decide
  rw [classifyBindError]
  by_cases h : e.isInvalidCredentials = true
  · rw [if_pos h]
    exact hsub _ (lookupBindErrorType_mem e.message adLdapBindErrors)
  · rw [if_neg h]
    decide

theorem NodeCache.get_set_same (c : NodeCache) (now now2 : Nat) (k v : String) :
    (c.set now k v).get now2 k =
      if now2 < now + c.stdTTL then some v else none := by
  rw [NodeCache.set, NodeCache.get]
  simp [List.find?_cons_of_pos]

theorem NodeCache.get_some (c : NodeCache) (now : Nat) (k v : String)
    (h : c.get now k = some v) :
    ∃ exp, (k, v, exp) ∈ c.entries ∧ now < exp := by
  rw [NodeCache.get] at h
  cases hf : c.entries.find? (fun e => e.fst == k) with
  | none => rw [hf] at h; exact absurd h (by simp)
  | some e =>
    rw [hf] at h
    obtain ⟨k0, v0, exp0⟩ := e
    simp only at h
    by_cases hlt : now < exp0
    · rw [if_pos hlt] at h
      have hk : k0 = k := by
        have := List.find?_some hf
        simpa using this
      have hv : v0 = v := by simpa using h
      refine ⟨exp0, ?_, hlt⟩
      have hmem := List.mem_of_find?_eq_some hf
      rw [hk, hv] at hmem
      exact hmem
    · rw [if_neg hlt] at h
      exact absurd h (by simp)

theorem NodeCache.get_flushAll (c : NodeCache) (now : Nat) (k : String) :
    c.flushAll.get now k = none := by
  rw [NodeCache.flushAll, NodeCache.get]
  simp

/-! ## Path lemmas -/

theorem findUserBindDN_bind_err (auth : ActiveDirectoryAuthenticate)
    (dir : Directory) (sam : String) (e : LdapError)
    (h : dir.bindResult auth.config.bindUserDN auth.config.bindUserPassword
        = some e) :
    findUserBindDN auth dir sam =
      (.failure (.err auth.config.bindUserDN (some (.ldap e))
          "LDAP_SEARCH_FAILED"),
       [.bind auth.config.bindUserDN auth.config.bindUserPassword, .unbind]) := by
  rw [findUserBindDN]
  simp only [h]

theorem findUserBindDN_search_err (auth : ActiveDirectoryAuthenticate)
    (dir : Directory) (sam : String) (e : LdapError)
    (hb : dir.bindResult auth.config.bindUserDN auth.config.bindUserPassword
        = none)
    (hs : dir.searchResult auth.config.baseDN sam = .error e) :
    findUserBindDN auth dir sam =
      (.failure (.err auth.config.bindUserDN (some (.ldap e))
          "LDAP_SEARCH_FAILED"),
       [.bind auth.config.bindUserDN auth.config.bindUserPassword,
        .search auth.config.baseDN sam, .unbind]) := by
  rw [findUserBindDN]
  simp only [hb, hs]

theorem findUserBindDN_not_found (auth : ActiveDirectoryAuthenticate)
    (dir : Directory) (sam : String)
    (hb : dir.bindResult auth.config.bindUserDN auth.config.bindUserPassword
        = none)
    (hs : dir.searchResult auth.config.baseDN sam = .ok []) :
    findUserBindDN auth dir sam =
      (.failure (.err auth.config.bindUserDN
          (some (.message (notFoundMessage sam))) "ACCOUNT_NOT_FOUND"),
       [.bind auth.config.bindUserDN auth.config.bindUserPassword,
        .search auth.config.baseDN sam, .unbind]) := by
  rw [findUserBindDN]
  simp only [hb, hs]

theorem findUserBindDN_found (auth : ActiveDirectoryAuthenticate)
    (dir : Directory) (sam : String) (entry : SearchEntry)
    (rest : List SearchEntry)
    (hb : dir.bindResult auth.config.bindUserDN auth.config.bindUserPassword
        = none)
    (hs : dir.searchResult auth.config.baseDN sam = .ok (entry :: rest)) :
    findUserBindDN auth dir sam =
      (.ok entry.dn,
       [.bind auth.config.bindUserDN auth.config.bindUserPassword,
        .search auth.config.baseDN sam, .unbind]) := by
  rw [findUserBindDN]
  simp only [hb, hs]

/-- Every failure result of the resolver carries the service-bind DN as
its best-known identifier and one of the two resolver error types. -/
theorem findUserBindDN_failure_shape (auth : ActiveDirectoryAuthenticate)
    (dir : Directory) (sam : String) (r : AuthResult)
    (h : (findUserBindDN auth dir sam).fst = .failure r) :
    r.bindUserDN = auth.config.bindUserDN ∧ r.success = false ∧
      (r.errorType? = some "LDAP_SEARCH_FAILED" ∨
        r.errorType? = some "ACCOUNT_NOT_FOUND") := by
  rw [findUserBindDN] at h
  cases hb : dir.bindResult auth.config.bindUserDN auth.config.bindUserPassword with
  | some e =>
    simp only [hb] at h
    cases h
    exact ⟨rfl, rfl, Or.inl rfl⟩
  | none =>
    simp only [hb] at h
    cases hs : dir.searchResult auth.config.baseDN sam with
    | error e =>
      simp only [hs] at h
      cases h
      exact ⟨rfl, rfl, Or.inl rfl⟩
    | ok entries =>
      cases entries with
      | nil =>
        simp only [hs] at h
        cases h
        exact ⟨rfl, rfl, Or.inr rfl⟩
      | cons entry rest =>
        simp only [hs] at h
        cases h

/-- The events of `findUserBindDN` always begin with the service bind,
and a user bind never occurs in them. -/
theorem findUserBindDN_events_service_only (auth : ActiveDirectoryAuthenticate)
    (dir : Directory) (sam : String) (dn pw : String)
    (h : Event.bind dn pw ∈ (findUserBindDN auth dir sam).snd) :
    dn = auth.config.bindUserDN ∧ pw = auth.config.bindUserPassword := by
  rw [findUserBindDN] at h
  cases hb : dir.bindResult auth.config.bindUserDN auth.config.bindUserPassword with
  | some e =>
    simp only [hb, List.mem_cons] at h
    rcases h with h | h | h
    · cases h; exact ⟨rfl, rfl⟩
    · cases h
    · simp at h
  | none =>
    simp only [hb] at h
    cases hs : dir.searchResult auth.config.baseDN sam with
    | error e =>
      simp only [hs, List.mem_cons] at h
      rcases h with h | h | h | h
      · cases h; exact ⟨rfl, rfl⟩
      · cases h
      · cases h
      · simp at h
    | ok entries =>
      cases entries with
      | nil =>
        simp only [hs, List.mem_cons] at h
        rcases h with h | h | h | h
        · cases h; exact ⟨rfl, rfl⟩
        · cases h
        · cases h
        · simp at h
      | cons entry rest =>
        simp only [hs, List.mem_cons] at h
        rcases h with h | h | h | h
        · cases h; exact ⟨rfl, rfl⟩
        · cases h
        · cases h
        · simp at h

theorem tryUserBind_events (dir : Directory) (dn pw sam : String) :
    (tryUserBind dir dn pw sam).snd = [.bind dn pw, .unbind] := by
  rw [tryUserBind]
  cases dir.bindResult dn pw <;> rfl

theorem tryUserBind_ok (dir : Directory) (dn pw sam : String)
    (h : dir.bindResult dn pw = none) :
    (tryUserBind dir dn pw sam).fst = .ok dn sam := by
  rw [tryUserBind, h]

theorem tryUserBind_fail (dir : Directory) (dn pw sam : String) (e : LdapError)
    (h : dir.bindResult dn pw = some e) :
    (tryUserBind dir dn pw sam).fst =
      .err dn (some (.ldap e)) (classifyBindError e) := by
  rw [tryUserBind, h]

theorem tryUserBind_dn (dir : Directory) (dn pw sam : String) :
    (tryUserBind dir dn pw sam).fst.bindUserDN = dn := by
  rw [tryUserBind]
  cases dir.bindResult dn pw <;> rfl

theorem tryUserBind_errorType_shape (dir : Directory) (dn pw sam : String)
    (t : String) (h : (tryUserBind dir dn pw sam).fst.errorType? = some t) :
    ∃ e, dir.bindResult dn pw = some e ∧ t = classifyBindError e := by
  rw [tryUserBind] at h
  cases hb : dir.bindResult dn pw with
  | none => rw [hb] at h; cases h
  | some e =>
    rw [hb] at h
    refine ⟨e, rfl, ?_⟩
    cases h
    rfl

theorem authenticate_url_empty (auth : ActiveDirectoryAuthenticate)
    (dir : Directory) (cache : Option NodeCache) (now : Nat) (u p : String)
    (h : auth.clientOptions.url = "") :
    authenticate auth dir cache now u p =
      (.err "" (some (.message urlNotConfiguredMessage)) "CONFIGURATION_ERROR",
       cache, []) := by
  rw [authenticate, if_pos h]

theorem authenticate_empty_user (auth : ActiveDirectoryAuthenticate)
    (dir : Directory) (cache : Option NodeCache) (now : Nat) (p : String)
    (hurl : auth.clientOptions.url ≠ "") :
    authenticate auth dir cache now "" p =
      (.err "" none "EMPTY_USER_NAME", cache, []) := by
  rw [authenticate, if_neg hurl, if_pos (Or.inl rfl), if_pos rfl]

theorem authenticate_empty_password (auth : ActiveDirectoryAuthenticate)
    (dir : Directory) (cache : Option NodeCache) (now : Nat) (u : String)
    (hurl : auth.clientOptions.url ≠ "") (hu : u ≠ "") :
    authenticate auth dir cache now u "" =
      (.err "" none "EMPTY_PASSWORD", cache, []) := by
  rw [authenticate, if_neg hurl, if_pos (Or.inr rfl), if_neg hu]

theorem authenticate_cache_hit (auth : ActiveDirectoryAuthenticate)
    (dir : Directory) (cache : Option NodeCache) (now : Nat) (u p dn : String)
    (hurl : auth.clientOptions.url ≠ "") (hu : u ≠ "") (hp : p ≠ "")
    (hhit : cache.bind (fun c => c.get now (getUserNamePart u)) = some dn) :
    authenticate auth dir cache now u p =
      ((tryUserBind dir dn p (getUserNamePart u)).fst, cache,
       (tryUserBind dir dn p (getUserNamePart u)).snd) := by
  rw [authenticate, if_neg hurl, if_neg (by simp [hu, hp])]
  simp only [hhit]

theorem authenticate_resolver_failure (auth : ActiveDirectoryAuthenticate)
    (dir : Directory) (cache : Option NodeCache) (now : Nat) (u p : String)
    (r : AuthResult) (ev : List Event)
    (hurl : auth.clientOptions.url ≠ "") (hu : u ≠ "") (hp : p ≠ "")
    (hmiss : cache.bind (fun c => c.get now (getUserNamePart u)) = none)
    (hfind : findUserBindDN auth dir (getUserNamePart u) = (.failure r, ev)) :
    authenticate auth dir cache now u p = (r, cache, ev) := by
  rw [authenticate, if_neg hurl, if_neg (by simp [hu, hp])]
  simp only [hmiss, hfind]

theorem authenticate_resolved (auth : ActiveDirectoryAuthenticate)
    (dir : Directory) (cache : Option NodeCache) (now : Nat) (u p dn : String)
    (ev : List Event)
    (hurl : auth.clientOptions.url ≠ "") (hu : u ≠ "") (hp : p ≠ "")
    (hmiss : cache.bind (fun c => c.get now (getUserNamePart u)) = none)
    (hfind : findUserBindDN auth dir (getUserNamePart u) = (.ok dn, ev)) :
    authenticate auth dir cache now u p =
      ((tryUserBind dir dn p (getUserNamePart u)).fst,
       (if auth.config.cacheUserBindDNs.getD false then
          cache.map (fun c => c.set now (getUserNamePart u) dn)
        else cache),
       ev ++ (tryUserBind dir dn p (getUserNamePart u)).snd) := by
  rw [authenticate, if_neg hurl, if_neg (by simp [hu, hp])]
  simp only [hmiss, hfind]

theorem findUserBindDN_events_ne_nil (auth : ActiveDirectoryAuthenticate)
    (dir : Directory) (sam : String) :
    (findUserBindDN auth dir sam).snd ≠ [] := by
  rw [findUserBindDN]
  cases dir.bindResult auth.config.bindUserDN auth.config.bindUserPassword with
  | some e => simp
  | none =>
    cases dir.searchResult auth.config.baseDN sam with
    | error e => simp
    | ok entries => cases entries <;> simp

theorem findUserBindDN_search_event (auth : ActiveDirectoryAuthenticate)
    (dir : Directory) (sam : String)
    (hb : dir.bindResult auth.config.bindUserDN auth.config.bindUserPassword
        = none) :
    Event.search auth.config.baseDN sam ∈ (findUserBindDN auth dir sam).snd := by
  rw [findUserBindDN]
  simp only [hb]
  cases dir.searchResult auth.config.baseDN sam with
  | error e => simp
  | ok entries => cases entries <;> simp

theorem findUserBindDN_ok_shape (auth : ActiveDirectoryAuthenticate)
    (dir : Directory) (sam dn : String)
    (h : (findUserBindDN auth dir sam).fst = .ok dn) :
    ∃ entry rest,
      dir.searchResult auth.config.baseDN sam = .ok (entry :: rest) ∧
        dn = entry.dn := by
  rw [findUserBindDN] at h
  cases hb : dir.bindResult auth.config.bindUserDN auth.config.bindUserPassword with
  | some e => simp only [hb] at h; cases h
  | none =>
    simp only [hb] at h
    cases hs : dir.searchResult auth.config.baseDN sam with
    | error e => simp only [hs] at h; cases h
    | ok entries =>
      cases entries with
      | nil => simp only [hs] at h; cases h
      | cons entry rest =>
        simp only [hs] at h
        cases h
        exact ⟨entry, rest, rfl, rfl⟩

/-- On a cache miss with a working service bind, `authenticate` performs
a directory search for the normalized account name. -/
theorem authenticate_miss_has_search (auth : ActiveDirectoryAuthenticate)
    (dir : Directory) (cache : Option NodeCache) (now : Nat) (u p : String)
    (hurl : auth.clientOptions.url ≠ "") (hu : u ≠ "") (hp : p ≠ "")
    (hmiss : cache.bind (fun c => c.get now (getUserNamePart u)) = none)
    (hsvc : dir.bindResult auth.config.bindUserDN auth.config.bindUserPassword
        = none) :
    Event.search auth.config.baseDN (getUserNamePart u) ∈
      (authenticate auth dir cache now u p).snd.snd := by
  have hev := findUserBindDN_search_event auth dir (getUserNamePart u) hsvc
  cases hf : findUserBindDN auth dir (getUserNamePart u) with
  | mk fst ev =>
    rw [hf] at hev
    cases fst with
    | failure r =>
      rw [authenticate_resolver_failure auth dir cache now u p r ev hurl hu hp
        hmiss hf]
      exact hev
    | ok dn =>
      rw [authenticate_resolved auth dir cache now u p dn ev hurl hu hp
        hmiss hf]
      exact List.mem_append_left _ hev

/-! ## Concrete fixtures -/

/-- A configured sample instance with caching enabled. -/
def sampleAuth : ActiveDirectoryAuthenticate :=
  { clientOptions := { url := "ldap://example.com" },
    config := { baseDN := "DC=example,DC=com",
                bindUserDN := "CN=admin,CN=Users,DC=example,DC=com",
                bindUserPassword := "servicePw",
                cacheUserBindDNs := some true } }

/-- The sample instance with an unconfigured (empty) client URL. -/
def sampleAuthNoUrl : ActiveDirectoryAuthenticate :=
  { clientOptions := { url := "" }, config := sampleAuth.config }

/-- The directory entry the sample searches resolve to. -/
def sampleEntry : SearchEntry := { dn := "CN=alice,CN=Users,DC=example,DC=com" }

/-- A directory in which every bind succeeds and every search finds the
sample entry. -/
def sampleDir : Directory :=
  { bindResult := fun _ _ => none,
    searchResult := fun _ _ => .ok [sampleEntry] }

/-- A realistic Active Directory invalid-credentials error whose message
carries sub-status `775` (account locked out). -/
def lockedOutError : LdapError :=
  { isInvalidCredentials := true,
    message := "80090308: LdapErr: DSID-0C09030B, comment: AcceptSecurityContext error, data 775, v893" }

/-- A network-style service failure that is not an invalid-credentials
error. -/
def svcError : LdapError :=
  { isInvalidCredentials := false, message := "connect ECONNREFUSED" }

/-- A directory whose service bind fails outright. -/
def svcFailDir : Directory :=
  { bindResult := fun _ _ => some svcError,
    searchResult := fun _ _ => .ok [] }

/-- A directory where the service bind succeeds, searches find the sample
entry, and every other bind fails with the locked-out error. -/
def userBindFailDir : Directory :=
  { bindResult := fun dn _ =>
      if dn = sampleAuth.config.bindUserDN then none else some lockedOutError,
    searchResult := fun _ _ => .ok [sampleEntry] }

/-- A cache already holding the sample entry for `alice`, expiring at 60. -/
def cacheWithAlice : NodeCache :=
  { stdTTL := 60, entries := [("alice", sampleEntry.dn, 60)] }

/-- The freshly constructed cache of the class constructor. -/
def emptyCache : NodeCache :=
  { stdTTL := 60, entries := [] }

/-! ## Claims -/

/-- C5 counterexample: on an identity with two backslashes the claim's
"otherwise it returns identity unchanged" fails — `getUserNamePart`
returns the segment before the first backslash, not the input. -/
theorem C5_counterexample :
    getUserNamePart "EXAMPLE\\sub\\alice" = "EXAMPLE" ∧
      getUserNamePart "EXAMPLE\\sub\\alice" ≠ "EXAMPLE\\sub\\alice" := by
  constructor
  · decide
  · decide

/-- C5 (amended): `normalize` returns the substring before the first `@`
when the identity contains `@`; else, with exactly one backslash, the
substring after it; with no backslash the identity unchanged; and with
any other number of backslashes the substring before the first one. -/
theorem C5_getUserNamePart_amended (s : String) :
    (s.data.contains '@' = true →
      getUserNamePart s = String.mk (s.data.takeWhile (fun a => !(a == '@'))))
    ∧ (s.data.contains '@' = false → s.data.count '\\' = 1 →
      getUserNamePart s =
        String.mk ((s.data.dropWhile (fun a => !(a == '\\'))).tail))
    ∧ (s.data.contains '@' = false → s.data.contains '\\' = false →
      getUserNamePart s = s)
    ∧ (s.data.contains '@' = false → s.data.count '\\' ≠ 1 →
      getUserNamePart s = String.mk (s.data.takeWhile (fun a => !(a == '\\')))) := by
  refine ⟨?_, ?_, ?_, ?_⟩
  · intro h
    rw [getUserNamePart, if_pos h, headD_splitOnChar]
  · intro h h1
    rw [getUserNamePart, if_neg (by simpa using h)]
    simp [splitOnChar_count_one '\\' s.data h1]
  · intro h h2
    rw [getUserNamePart, if_neg (by simpa using h)]
    simp [splitOnChar_not_contains '\\' s.data h2]
  · intro h h1
    have hlen : (splitOnChar '\\' s.data).length ≠ 2 := by
      rw [length_splitOnChar]
      omega
    rw [getUserNamePart, if_neg (by simpa using h)]
    simp [hlen, ← headD_splitOnChar]

/-- C5 witness: the two-segment shape `DOMAIN\alice` gives the substring
after the backslash, namely `alice`. -/
theorem C5_getUserNamePart_amended_witness :
    ("DOMAIN\\alice").data.contains '@' = false ∧
      ("DOMAIN\\alice").data.count '\\' = 1 ∧
      getUserNamePart "DOMAIN\\alice" =
        String.mk ((("DOMAIN\\alice").data.dropWhile (fun a => !(a == '\\'))).tail) ∧
      getUserNamePart "DOMAIN\\alice" = "alice" :=
  ⟨by decide, by decide,
   (C5_getUserNamePart_amended "DOMAIN\\alice").2.1 (by decide) (by decide),
   by decide⟩

/-- C1: on every failed user bind, the result is a failure carrying the
tried DN and the raw error, whose type is exactly what the fixed marker
table prescribes (`specClassifyBindError`, the spec-worded classifier:
generic `AUTHENTICATION_FAILED` unless the error is of the
invalid-credentials class and its message contains a marker, in which
case the first matching marker's kind); in particular a message carrying
only the `775` marker yields `ACCOUNT_LOCKED_OUT`. -/
theorem C1_bind_error_classification (dir : Directory) (dn pw sam : String)
    (e : LdapError) (h : dir.bindResult dn pw = some e) :
    (tryUserBind dir dn pw sam).fst =
      .err dn (some (.ldap e)) (specClassifyBindError e)
    ∧ (e.isInvalidCredentials = false →
        specClassifyBindError e = "AUTHENTICATION_FAILED")
    ∧ ((∀ q ∈ adLdapBindErrors, strIncludes e.message q.fst = false) →
        specClassifyBindError e = "AUTHENTICATION_FAILED")
    ∧ (e.isInvalidCredentials = true →
        strIncludes e.message " data 775, " = true →
        (∀ q ∈ adLdapBindErrors, q.snd ≠ "ACCOUNT_LOCKED_OUT" →
          strIncludes e.message q.fst = false) →
        (tryUserBind dir dn pw sam).fst.errorType? = some "ACCOUNT_LOCKED_OUT") := by
  have hfail := tryUserBind_fail dir dn pw sam e h
  refine ⟨?_, ?_, ?_, ?_⟩
  · rw [hfail, classifyBindError_eq_spec]
  · intro hinv
    rw [specClassifyBindError, if_neg (by simp [hinv])]
  · intro hnone
    rw [specClassifyBindError]
    by_cases hinv : e.isInvalidCredentials = true
    · rw [if_pos hinv, List.find?_eq_none.mpr]
      · rfl
      · intro q hq
        simp [hnone q hq]
    · rw [if_neg hinv]
  · intro hinv h775 hothers
    have h52e := hothers (" data 52e, ", "LOGON_FAILURE") (by decide) (by decide)
    have h525 := hothers (" data 525, ", "NO_SUCH_USER") (by decide) (by decide)
    have h530 := hothers (" data 530, ", "INVALID_LOGIN_HOURS") (by decide)
      (by decide)
    have h531 := hothers (" data 531, ", "INVALID_WORKSTATION") (by decide)
      (by decide)
    have h532 := hothers (" data 532, ", "PASSWORD_EXPIRED") (by decide)
      (by decide)
    have h533 := hothers (" data 533, ", "ACCOUNT_DISABLED") (by decide)
      (by decide)
    have h534 := hothers (" data 534, ", "INVALID_LOGIN_TYPE") (by decide)
      (by decide)
    have h701 := hothers (" data 701, ", "ACCOUNT_EXPIRED") (by decide)
      (by decide)
    have h773 := hothers (" data 773, ", "PASSWORD_MUST_CHANGE") (by decide)
      (by decide)
    rw [hfail, classifyBindError_eq_spec]
    simp only [AuthResult.errorType?, Option.some_inj]
    rw [specClassifyBindError, if_pos hinv, adLdapBindErrors]
    simp [List.find?, h52e, h525, h530, h531, h532, h533, h534, h701, h773,
      h775]

/-- C1 witness: the realistic locked-out message classifies to
`ACCOUNT_LOCKED_OUT` on a failed user bind. -/
theorem C1_bind_error_classification_witness :
    (fun _ _ => some lockedOutError : String → String → Option LdapError)
        "CN=alice,CN=Users,DC=example,DC=com" "badPw" = some lockedOutError ∧
      (tryUserBind
          { bindResult := fun _ _ => some lockedOutError,
            searchResult := fun _ _ => .ok [] }
          "CN=alice,CN=Users,DC=example,DC=com" "badPw"
          "alice").fst.errorType? = some "ACCOUNT_LOCKED_OUT" :=
  ⟨rfl,
   (C1_bind_error_classification
      { bindResult := fun _ _ => some lockedOutError,
        searchResult := fun _ _ => .ok [] }
      "CN=alice,CN=Users,DC=example,DC=com" "badPw" "alice" lockedOutError
      rfl).2.2.2 (by decide) (by decide) (by decide)⟩

/-- C3 counterexample: with both arguments empty the user-name check wins,
so `authenticate(anything, "")` does not always yield `EMPTY_PASSWORD`;
and with an unconfigured URL even `authenticate("", ...)` yields
`CONFIGURATION_ERROR` rather than `EMPTY_USER_NAME`. -/
theorem C3_counterexample :
    (authenticate sampleAuth sampleDir none 0 "" "").fst.errorType? =
        some "EMPTY_USER_NAME"
    ∧ (authenticate sampleAuth sampleDir none 0 "" "").fst.errorType? ≠
        some "EMPTY_PASSWORD"
    ∧ (authenticate sampleAuthNoUrl sampleDir none 0 "" "pw").fst.errorType? =
        some "CONFIGURATION_ERROR" := by
  refine ⟨by decide, by decide, by decide⟩

/-- C3 (amended): provided the client URL is configured,
`authenticate("", p)` always rejects with `EMPTY_USER_NAME` and no
directory interaction, and `authenticate(u, "")` for nonempty `u` always
rejects with `EMPTY_PASSWORD` and no directory interaction. -/
theorem C3_empty_inputs (auth : ActiveDirectoryAuthenticate) (dir : Directory)
    (cache : Option NodeCache) (now : Nat) (u p : String)
    (hurl : auth.clientOptions.url ≠ "") :
    authenticate auth dir cache now "" p =
      (.err "" none "EMPTY_USER_NAME", cache, [])
    ∧ (u ≠ "" →
      authenticate auth dir cache now u "" =
        (.err "" none "EMPTY_PASSWORD", cache, [])) := by
  constructor
  · exact authenticate_empty_user auth dir cache now p hurl
  · intro hu
    exact authenticate_empty_password auth dir cache now u hurl hu

/-- C3 witness: concrete empty-input rejections. -/
theorem C3_empty_inputs_witness :
    sampleAuth.clientOptions.url ≠ "" ∧
      authenticate sampleAuth sampleDir none 0 "" "secret" =
        (.err "" none "EMPTY_USER_NAME", none, []) ∧
      authenticate sampleAuth sampleDir none 0 "bob" "" =
        (.err "" none "EMPTY_PASSWORD", none, []) :=
  ⟨by decide,
   (C3_empty_inputs sampleAuth sampleDir none 0 "bob" "secret"
      (by decide)).1,
   (C3_empty_inputs sampleAuth sampleDir none 0 "bob" "secret"
      (by decide)).2 (by decide)⟩

/-- C2: on a cache miss, a failing service bind or a failing search makes
`authenticate` return `LDAP_SEARCH_FAILED` carrying the raw cause; a
search with zero entries returns `ACCOUNT_NOT_FOUND` with a synthesized
message referencing the account name and no raw cause; and on every
resolver failure the only bind in the trace is the service bind, so no
verifier bind is attempted. -/
theorem C2_resolver_failures (auth : ActiveDirectoryAuthenticate)
    (dir : Directory) (cache : Option NodeCache) (now : Nat) (u p : String)
    (hurl : auth.clientOptions.url ≠ "") (hu : u ≠ "") (hp : p ≠ "")
    (hmiss : cache.bind (fun c => c.get now (getUserNamePart u)) = none) :
    (∀ e, dir.bindResult auth.config.bindUserDN auth.config.bindUserPassword
        = some e →
      authenticate auth dir cache now u p =
        (.err auth.config.bindUserDN (some (.ldap e)) "LDAP_SEARCH_FAILED",
         cache,
         [.bind auth.config.bindUserDN auth.config.bindUserPassword, .unbind]))
    ∧ (∀ e,
      dir.bindResult auth.config.bindUserDN auth.config.bindUserPassword
          = none →
      dir.searchResult auth.config.baseDN (getUserNamePart u) = .error e →
      authenticate auth dir cache now u p =
        (.err auth.config.bindUserDN (some (.ldap e)) "LDAP_SEARCH_FAILED",
         cache,
         [.bind auth.config.bindUserDN auth.config.bindUserPassword,
          .search auth.config.baseDN (getUserNamePart u), .unbind]))
    ∧ (dir.bindResult auth.config.bindUserDN auth.config.bindUserPassword
          = none →
      dir.searchResult auth.config.baseDN (getUserNamePart u) = .ok [] →
      authenticate auth dir cache now u p =
        (.err auth.config.bindUserDN
           (some (.message (notFoundMessage (getUserNamePart u))))
           "ACCOUNT_NOT_FOUND",
         cache,
         [.bind auth.config.bindUserDN auth.config.bindUserPassword,
          .search auth.config.baseDN (getUserNamePart u), .unbind])
      ∧ strIncludes (notFoundMessage (getUserNamePart u)) (getUserNamePart u)
          = true)
    ∧ (∀ r ev, findUserBindDN auth dir (getUserNamePart u) = (.failure r, ev) →
      ∀ dn pw2,
        Event.bind dn pw2 ∈ (authenticate auth dir cache now u p).snd.snd →
        dn = auth.config.bindUserDN) := by
  refine ⟨?_, ?_, ?_, ?_⟩
  · intro e he
    rw [authenticate_resolver_failure auth dir cache now u p _ _ hurl hu hp
      hmiss (findUserBindDN_bind_err auth dir (getUserNamePart u) e he)]
  · intro e hb hs
    rw [authenticate_resolver_failure auth dir cache now u p _ _ hurl hu hp
      hmiss (findUserBindDN_search_err auth dir (getUserNamePart u) e hb hs)]
  · intro hb hs
    refine ⟨?_, ?_⟩
    · rw [authenticate_resolver_failure auth dir cache now u p _ _ hurl hu hp
        hmiss (findUserBindDN_not_found auth dir (getUserNamePart u) hb hs)]
    · rw [notFoundMessage]
      exact strIncludes_append_middle _ _ _
  · intro r ev hfind dn pw2 hmem
    rw [authenticate_resolver_failure auth dir cache now u p r ev hurl hu hp
      hmiss hfind] at hmem
    have := findUserBindDN_events_service_only auth dir (getUserNamePart u)
      dn pw2 (by rw [hfind]; exact hmem)
    exact this.1

/-- C2 witness: a failing service bind yields `LDAP_SEARCH_FAILED`
carrying the cause, with only the service bind in the trace. -/
theorem C2_resolver_failures_witness :
    svcFailDir.bindResult sampleAuth.config.bindUserDN
        sampleAuth.config.bindUserPassword = some svcError ∧
      authenticate sampleAuth svcFailDir none 0 "alice" "pw" =
        (.err sampleAuth.config.bindUserDN (some (.ldap svcError))
           "LDAP_SEARCH_FAILED",
         none,
         [.bind sampleAuth.config.bindUserDN
            sampleAuth.config.bindUserPassword, .unbind]) :=
  ⟨rfl,
   (C2_resolver_failures sampleAuth svcFailDir none 0 "alice" "pw"
      (by decide) (by decide) (by decide) rfl).1 svcError rfl⟩

/-- C4: for every input and every behaviour of the directory collaborator,
`authenticate` returns a classified result: either a success, or a failure
whose error type belongs to the closed
`ActiveDirectoryAuthenticateErrorType` taxonomy. -/
theorem C4_total_classification (auth : ActiveDirectoryAuthenticate)
    (dir : Directory) (cache : Option NodeCache) (now : Nat) (u p : String) :
    (authenticate auth dir cache now u p).fst.success = true
    ∨ ∃ t, (authenticate auth dir cache now u p).fst.errorType? = some t
        ∧ t ∈ validErrorTypes := by
  by_cases hurl : auth.clientOptions.url = ""
  · rw [authenticate_url_empty auth dir cache now u p hurl]
    exact Or.inr ⟨"CONFIGURATION_ERROR", rfl, by decide⟩
  · by_cases hu : u = ""
    · subst hu
      rw [authenticate_empty_user auth dir cache now p hurl]
      exact Or.inr ⟨"EMPTY_USER_NAME", rfl, by decide⟩
    · by_cases hp : p = ""
      · subst hp
        rw [authenticate_empty_password auth dir cache now u hurl hu]
        exact Or.inr ⟨"EMPTY_PASSWORD", rfl, by decide⟩
      · cases hl : cache.bind (fun c => c.get now (getUserNamePart u)) with
        | some dn =>
          rw [authenticate_cache_hit auth dir cache now u p dn hurl hu hp hl]
          cases hb : dir.bindResult dn p with
          | none =>
            rw [tryUserBind_ok dir dn p (getUserNamePart u) hb]
            exact Or.inl rfl
          | some e =>
            rw [tryUserBind_fail dir dn p (getUserNamePart u) e hb]
            exact Or.inr ⟨classifyBindError e, rfl,
              classifyBindError_mem_valid e⟩
        | none =>
          cases hf : findUserBindDN auth dir (getUserNamePart u) with
          | mk fst ev =>
            cases fst with
            | failure r =>
              rw [authenticate_resolver_failure auth dir cache now u p r ev
                hurl hu hp hl hf]
              have hshape := findUserBindDN_failure_shape auth dir
                (getUserNamePart u) r (by rw [hf])
              rcases hshape.2.2 with h | h
              · exact Or.inr ⟨"LDAP_SEARCH_FAILED", h, by decide⟩
              · exact Or.inr ⟨"ACCOUNT_NOT_FOUND", h, by decide⟩
            | ok dn =>
              rw [authenticate_resolved auth dir cache now u p dn ev hurl hu
                hp hl hf]
              cases hb : dir.bindResult dn p with
              | none =>
                rw [tryUserBind_ok dir dn p (getUserNamePart u) hb]
                exact Or.inl rfl
              | some e =>
                rw [tryUserBind_fail dir dn p (getUserNamePart u) e hb]
                exact Or.inr ⟨classifyBindError e, rfl,
                  classifyBindError_mem_valid e⟩

/-- C10: the emptiness check inspects the raw user name, so a nonempty
user name normalizing to the empty account name (such as
`"@example.com"`) is not rejected with `EMPTY_USER_NAME`; on a cache miss
with a working service bind the directory is searched with the empty
`sAMAccountName`. -/
theorem C10_empty_normalized_name (auth : ActiveDirectoryAuthenticate)
    (dir : Directory) (cache : Option NodeCache) (now : Nat) (u p : String)
    (hurl : auth.clientOptions.url ≠ "") (hu : u ≠ "") (hp : p ≠ "")
    (hsam : getUserNamePart u = "") :
    (authenticate auth dir cache now u p).fst.errorType? ≠
        some "EMPTY_USER_NAME"
    ∧ (cache.bind (fun c => c.get now "") = none →
      dir.bindResult auth.config.bindUserDN auth.config.bindUserPassword
          = none →
      Event.search auth.config.baseDN "" ∈
        (authenticate auth dir cache now u p).snd.snd)
    ∧ getUserNamePart "@example.com" = "" := by
  refine ⟨?_, ?_, by decide⟩
  · cases hl : cache.bind (fun c => c.get now (getUserNamePart u)) with
    | some dn =>
      rw [authenticate_cache_hit auth dir cache now u p dn hurl hu hp hl]
      intro hcontra
      obtain ⟨e, _, ht⟩ := tryUserBind_errorType_shape dir dn p
        (getUserNamePart u) _ hcontra
      exact (classifyBindError_ne_resolver e).2.2 ht.symm
    | none =>
      cases hf : findUserBindDN auth dir (getUserNamePart u) with
      | mk fst ev =>
        cases fst with
        | failure r =>
          rw [authenticate_resolver_failure auth dir cache now u p r ev hurl
            hu hp hl hf]
          have hshape := findUserBindDN_failure_shape auth dir
            (getUserNamePart u) r (by rw [hf])
          rcases hshape.2.2 with h | h <;> rw [h] <;> simp
        | ok dn =>
          rw [authenticate_resolved auth dir cache now u p dn ev hurl hu hp
            hl hf]
          intro hcontra
          obtain ⟨e, _, ht⟩ := tryUserBind_errorType_shape dir dn p
            (getUserNamePart u) _ hcontra
          exact (classifyBindError_ne_resolver e).2.2 ht.symm
  · intro hmiss hsvc
    have hmiss' : cache.bind (fun c => c.get now (getUserNamePart u)) = none := by
      rw [hsam]; exact hmiss
    have := authenticate_miss_has_search auth dir cache now u p hurl hu hp
      hmiss' hsvc
    rw [hsam] at this
    exact this

/-- C10 witness: `authenticate` on `"@example.com"` searches for the empty
account name instead of rejecting the call. -/
theorem C10_empty_normalized_name_witness :
    getUserNamePart "@example.com" = "" ∧
      (authenticate sampleAuth sampleDir none 0 "@example.com" "pw").fst.errorType?
        ≠ some "EMPTY_USER_NAME" ∧
      Event.search sampleAuth.config.baseDN "" ∈
        (authenticate sampleAuth sampleDir none 0 "@example.com" "pw").snd.snd :=
  ⟨by decide,
   (C10_empty_normalized_name sampleAuth sampleDir none 0 "@example.com" "pw"
      (by decide) (by decide) (by decide) (by decide)).1,
   (C10_empty_normalized_name sampleAuth sampleDir none 0 "@example.com" "pw"
      (by decide) (by decide) (by decide) (by decide)).2.1 rfl rfl⟩

/-- C6: with caching enabled, after a call that resolved `R` for the
normalized name `N`, a second call for `N` within the TTL window issues
no resolver bind and no search: its whole trace is the verifier bind
against `R`, and its result is the verifier's. -/
theorem C6_cached_hit_verifies_directly (auth : ActiveDirectoryAuthenticate)
    (dir1 dir2 : Directory) (c : NodeCache) (now now2 : Nat)
    (u1 p1 u2 p2 N R : String) (ev1 : List Event)
    (hen : auth.config.cacheUserBindDNs.getD false = true)
    (hurl : auth.clientOptions.url ≠ "")
    (hu1 : u1 ≠ "") (hp1 : p1 ≠ "") (hu2 : u2 ≠ "") (hp2 : p2 ≠ "")
    (hN1 : getUserNamePart u1 = N) (hN2 : getUserNamePart u2 = N)
    (hmiss : c.get now N = none)
    (hfind : findUserBindDN auth dir1 N = (.ok R, ev1))
    (httl : now2 < now + c.stdTTL) :
    (authenticate auth dir1 (some c) now u1 p1).snd.fst = some (c.set now N R)
    ∧ authenticate auth dir2 (some (c.set now N R)) now2 u2 p2 =
        ((tryUserBind dir2 R p2 N).fst, some (c.set now N R),
         [.bind R p2, .unbind])
    ∧ (∀ b s, Event.search b s ∉
        (authenticate auth dir2 (some (c.set now N R)) now2 u2 p2).snd.snd) := by
  have hmiss1 : (some c).bind (fun cc => cc.get now (getUserNamePart u1))
      = none := by
    rw [hN1]
    exact hmiss
  have hfind1 : findUserBindDN auth dir1 (getUserNamePart u1) = (.ok R, ev1) := by
    rw [hN1]
    exact hfind
  have hhit : (some (c.set now N R)).bind
      (fun cc => cc.get now2 (getUserNamePart u2)) = some R := by
    rw [hN2]
    show (c.set now N R).get now2 N = some R
    rw [NodeCache.get_set_same, if_pos httl]
  have h2 : authenticate auth dir2 (some (c.set now N R)) now2 u2 p2 =
      ((tryUserBind dir2 R p2 N).fst, some (c.set now N R),
       [.bind R p2, .unbind]) := by
    rw [authenticate_cache_hit auth dir2 (some (c.set now N R)) now2 u2 p2 R
      hurl hu2 hp2 hhit, tryUserBind_events, hN2]
  refine ⟨?_, h2, ?_⟩
  · rw [authenticate_resolved auth dir1 (some c) now u1 p1 R ev1 hurl hu1 hp1
      hmiss1 hfind1]
    show (if auth.config.cacheUserBindDNs.getD false then
        (some c).map (fun cc => cc.set now (getUserNamePart u1) R)
      else some c) = some (c.set now N R)
    rw [if_pos hen, hN1]
    rfl
  · intro b s
    rw [h2]
    simp

/-- C6 witness: after resolving `alice` through the directory, a repeat
call thirty time units later binds directly against the cached entry. -/
theorem C6_cached_hit_verifies_directly_witness :
    (authenticate sampleAuth sampleDir (some emptyCache) 0
        "alice@example.com" "pw").snd.fst =
      some (emptyCache.set 0 "alice" sampleEntry.dn)
    ∧ authenticate sampleAuth sampleDir
        (some (emptyCache.set 0 "alice" sampleEntry.dn)) 30
        "EXAMPLE\\alice" "pw2" =
      ((tryUserBind sampleDir sampleEntry.dn "pw2" "alice").fst,
       some (emptyCache.set 0 "alice" sampleEntry.dn),
       [.bind sampleEntry.dn "pw2", .unbind]) :=
  ⟨(C6_cached_hit_verifies_directly sampleAuth sampleDir sampleDir emptyCache
      0 30 "alice@example.com" "pw" "EXAMPLE\\alice" "pw2" "alice"
      sampleEntry.dn
      [.bind sampleAuth.config.bindUserDN sampleAuth.config.bindUserPassword,
       .search sampleAuth.config.baseDN "alice", .unbind]
      (by decide) (by decide) (by decide) (by decide) (by decide) (by decide)
      (by decide) (by decide) rfl (by decide) (by decide)).1,
   (C6_cached_hit_verifies_directly sampleAuth sampleDir sampleDir emptyCache
      0 30 "alice@example.com" "pw" "EXAMPLE\\alice" "pw2" "alice"
      sampleEntry.dn
      [.bind sampleAuth.config.bindUserDN sampleAuth.config.bindUserPassword,
       .search sampleAuth.config.baseDN "alice", .unbind]
      (by decide) (by decide) (by decide) (by decide) (by decide) (by decide)
      (by decide) (by decide) rfl (by decide) (by decide)).2.1⟩

/-- C7: the cache never returns an entry at or after its expiry time;
insertion overwrites and refreshes the entry for the key; and once the
TTL has elapsed — or after `clearCache()` — a subsequent `authenticate`
for the cached name performs a fresh resolver search. -/
theorem C7_cache_invariants (c : NodeCache) (now now2 : Nat)
    (key value : String) (auth : ActiveDirectoryAuthenticate)
    (dir : Directory) (u p : String)
    (hurl : auth.clientOptions.url ≠ "") (hu : u ≠ "") (hp : p ≠ "")
    (hkey : getUserNamePart u = key)
    (hsvc : dir.bindResult auth.config.bindUserDN auth.config.bindUserPassword
        = none) :
    (∀ v, c.get now key = some v → ∃ exp, (key, v, exp) ∈ c.entries ∧ now < exp)
    ∧ ((c.set now key value).get now2 key =
        if now2 < now + c.stdTTL then some value else none)
    ∧ (now + c.stdTTL ≤ now2 →
      Event.search auth.config.baseDN key ∈
        (authenticate auth dir (some (c.set now key value)) now2 u p).snd.snd)
    ∧ Event.search auth.config.baseDN key ∈
        (authenticate auth dir (clearCache (some (c.set now key value)))
          now2 u p).snd.snd := by
  refine ⟨fun v hv => NodeCache.get_some c now key v hv,
    NodeCache.get_set_same c now now2 key value, ?_, ?_⟩
  · intro hexp
    have hmiss : (some (c.set now key value)).bind
        (fun cc => cc.get now2 (getUserNamePart u)) = none := by
      rw [hkey]
      show (c.set now key value).get now2 key = none
      rw [NodeCache.get_set_same, if_neg (by omega)]
    have := authenticate_miss_has_search auth dir (some (c.set now key value))
      now2 u p hurl hu hp hmiss hsvc
    rw [hkey] at this
    exact this
  · have hmiss : (clearCache (some (c.set now key value))).bind
        (fun cc => cc.get now2 (getUserNamePart u)) = none := by
      rw [hkey]
      show ((c.set now key value).flushAll).get now2 key = none
      exact NodeCache.get_flushAll _ now2 key
    have := authenticate_miss_has_search auth dir
      (clearCache (some (c.set now key value))) now2 u p hurl hu hp hmiss hsvc
    rw [hkey] at this
    exact this

/-- C7 witness: at time 100 the entry written at time 0 with TTL 60 is
expired, so the call searches the directory again. -/
theorem C7_cache_invariants_witness :
    0 + cacheWithAlice.stdTTL ≤ 100 ∧
      Event.search sampleAuth.config.baseDN "alice" ∈
        (authenticate sampleAuth sampleDir
          (some (cacheWithAlice.set 0 "alice" sampleEntry.dn)) 100
          "alice" "pw").snd.snd :=
  ⟨by decide,
   (C7_cache_invariants cacheWithAlice 0 100 "alice" sampleEntry.dn
      sampleAuth sampleDir "alice" "pw" (by decide) (by decide) (by decide)
      (by decide) rfl).2.2.1 (by decide)⟩

/-- C8: on every failure, `bindUserDN` is the best-known identifier and
is never fabricated: empty when the call was rejected before any
directory interaction, the service-bind DN on the resolver failure
kinds, and the cached or freshly resolved entry DN on a verifier
failure. -/
theorem C8_failure_bindUserDN (auth : ActiveDirectoryAuthenticate)
    (dir : Directory) (cache : Option NodeCache) (now : Nat) (u p : String) :
    ((authenticate auth dir cache now u p).snd.snd = [] →
      (authenticate auth dir cache now u p).fst.success = false →
      (authenticate auth dir cache now u p).fst.bindUserDN = "")
    ∧ ((authenticate auth dir cache now u p).fst.errorType? =
          some "LDAP_SEARCH_FAILED"
        ∨ (authenticate auth dir cache now u p).fst.errorType? =
          some "ACCOUNT_NOT_FOUND" →
      (authenticate auth dir cache now u p).fst.bindUserDN =
        auth.config.bindUserDN)
    ∧ (∀ t, (authenticate auth dir cache now u p).fst.errorType? = some t →
      t ∉ ["CONFIGURATION_ERROR", "EMPTY_USER_NAME", "EMPTY_PASSWORD",
           "LDAP_SEARCH_FAILED", "ACCOUNT_NOT_FOUND"] →
      cache.bind (fun cc => cc.get now (getUserNamePart u)) =
          some ((authenticate auth dir cache now u p).fst.bindUserDN)
        ∨ ∃ entry rest,
          dir.searchResult auth.config.baseDN (getUserNamePart u) =
              .ok (entry :: rest)
            ∧ (authenticate auth dir cache now u p).fst.bindUserDN =
                entry.dn) := by
  by_cases hurl : auth.clientOptions.url = ""
  · rw [authenticate_url_empty auth dir cache now u p hurl]
    refine ⟨fun _ _ => rfl, ?_, ?_⟩
    · intro h
      rcases h with h | h <;> simp [AuthResult.errorType?] at h
    · intro t ht hnot
      have : t = "CONFIGURATION_ERROR" := by
        simpa [AuthResult.errorType?] using ht.symm
      subst this
      exact absurd (by decide) hnot
  · by_cases hu : u = ""
    · subst hu
      rw [authenticate_empty_user auth dir cache now p hurl]
      refine ⟨fun _ _ => rfl, ?_, ?_⟩
      · intro h
        rcases h with h | h <;> simp [AuthResult.errorType?] at h
      · intro t ht hnot
        have : t = "EMPTY_USER_NAME" := by
          simpa [AuthResult.errorType?] using ht.symm
        subst this
        exact absurd (by decide) hnot
    · by_cases hp : p = ""
      · subst hp
        rw [authenticate_empty_password auth dir cache now u hurl hu]
        refine ⟨fun _ _ => rfl, ?_, ?_⟩
        · intro h
          rcases h with h | h <;> simp [AuthResult.errorType?] at h
        · intro t ht hnot
          have : t = "EMPTY_PASSWORD" := by
            simpa [AuthResult.errorType?] using ht.symm
          subst this
          exact absurd (by decide) hnot
      · cases hl : cache.bind (fun cc => cc.get now (getUserNamePart u)) with
        | some dn =>
          rw [authenticate_cache_hit auth dir cache now u p dn hurl hu hp hl]
          refine ⟨?_, ?_, ?_⟩
          · intro hev
            rw [tryUserBind_events] at hev
            simp at hev
          · intro h
            rcases h with h | h <;>
              obtain ⟨e, _, ht⟩ :=
                tryUserBind_errorType_shape dir dn p (getUserNamePart u) _ h
            · exact absurd ht.symm (classifyBindError_ne_resolver e).1
            · exact absurd ht.symm (classifyBindError_ne_resolver e).2.1
          · intro t ht hnot
            left
            rw [tryUserBind_dn]
        | none =>
          cases hf : findUserBindDN auth dir (getUserNamePart u) with
          | mk fst ev =>
            cases fst with
            | failure r =>
              rw [authenticate_resolver_failure auth dir cache now u p r ev
                hurl hu hp hl hf]
              have hshape := findUserBindDN_failure_shape auth dir
                (getUserNamePart u) r (by rw [hf])
              refine ⟨?_, fun _ => hshape.1, ?_⟩
              · intro hev
                have hne := findUserBindDN_events_ne_nil auth dir
                  (getUserNamePart u)
                rw [hf] at hne
                exact absurd hev hne
              · intro t ht hnot
                rcases hshape.2.2 with h | h <;> rw [h] at ht <;>
                  have := Option.some_inj.mp ht <;> subst this <;>
                  exact absurd (by decide) hnot
            | ok dn =>
              rw [authenticate_resolved auth dir cache now u p dn ev hurl hu
                hp hl hf]
              refine ⟨?_, ?_, ?_⟩
              · intro hev
                rw [tryUserBind_events] at hev
                simp at hev
              · intro h
                rcases h with h | h <;>
                  obtain ⟨e, _, ht⟩ :=
                    tryUserBind_errorType_shape dir dn p (getUserNamePart u)
                      _ h
                · exact absurd ht.symm (classifyBindError_ne_resolver e).1
                · exact absurd ht.symm (classifyBindError_ne_resolver e).2.1
              · intro t ht hnot
                right
                obtain ⟨entry, rest, hs, hdn⟩ := findUserBindDN_ok_shape auth
                  dir (getUserNamePart u) dn (by rw [hf])
                refine ⟨entry, rest, hs, ?_⟩
                rw [tryUserBind_dn]
                exact hdn

/-- C8 witness: a verifier failure against a freshly resolved entry
carries that entry's DN. -/
theorem C8_failure_bindUserDN_witness :
    (authenticate sampleAuth userBindFailDir none 0 "alice" "badPw").fst.errorType?
        = some "ACCOUNT_LOCKED_OUT" ∧
      ((none : Option NodeCache).bind (fun cc => cc.get 0 (getUserNamePart "alice")) =
          some ((authenticate sampleAuth userBindFailDir none 0 "alice"
            "badPw").fst.bindUserDN)
        ∨ ∃ entry rest,
          userBindFailDir.searchResult sampleAuth.config.baseDN
              (getUserNamePart "alice") = .ok (entry :: rest)
            ∧ (authenticate sampleAuth userBindFailDir none 0 "alice"
                "badPw").fst.bindUserDN = entry.dn) :=
  ⟨by decide,
   (C8_failure_bindUserDN sampleAuth userBindFailDir none 0 "alice"
      "badPw").2.2 "ACCOUNT_LOCKED_OUT" (by decide) (by decide)⟩

/-- C9: the cache state after `authenticate` differs from the input state
only on the path where resolution succeeded with caching enabled, where
it is exactly one insertion of the normalized name; configuration
errors, empty inputs, cache hits (including a subsequently failing bind
against the cached DN), resolver failures, and disabled caching all
leave the cache unchanged. -/
theorem C9_cache_frame (auth : ActiveDirectoryAuthenticate) (dir : Directory)
    (cache : Option NodeCache) (now : Nat) (u p : String) :
    ((authenticate auth dir cache now u p).snd.fst = cache
      ∨ (auth.config.cacheUserBindDNs.getD false = true
        ∧ cache.bind (fun cc => cc.get now (getUserNamePart u)) = none
        ∧ ∃ dn ev, findUserBindDN auth dir (getUserNamePart u) = (.ok dn, ev)
          ∧ (authenticate auth dir cache now u p).snd.fst =
              cache.map (fun cc => cc.set now (getUserNamePart u) dn)))
    ∧ (auth.clientOptions.url = "" ∨ u = "" ∨ p = "" →
      (authenticate auth dir cache now u p).snd.fst = cache)
    ∧ (∀ dn, cache.bind (fun cc => cc.get now (getUserNamePart u)) = some dn →
      (authenticate auth dir cache now u p).snd.fst = cache)
    ∧ (∀ r ev, findUserBindDN auth dir (getUserNamePart u) = (.failure r, ev) →
      (authenticate auth dir cache now u p).snd.fst = cache)
    ∧ (auth.config.cacheUserBindDNs.getD false = false →
      (authenticate auth dir cache now u p).snd.fst = cache) := by
  by_cases hurl : auth.clientOptions.url = ""
  · rw [authenticate_url_empty auth dir cache now u p hurl]
    exact ⟨Or.inl rfl, fun _ => rfl, fun _ _ => rfl, fun _ _ _ => rfl,
      fun _ => rfl⟩
  · by_cases hu : u = ""
    · subst hu
      rw [authenticate_empty_user auth dir cache now p hurl]
      exact ⟨Or.inl rfl, fun _ => rfl, fun _ _ => rfl, fun _ _ _ => rfl,
        fun _ => rfl⟩
    · by_cases hp : p = ""
      · subst hp
        rw [authenticate_empty_password auth dir cache now u hurl hu]
        exact ⟨Or.inl rfl, fun _ => rfl, fun _ _ => rfl, fun _ _ _ => rfl,
          fun _ => rfl⟩
      · cases hl : cache.bind (fun cc => cc.get now (getUserNamePart u)) with
        | some dn0 =>
          rw [authenticate_cache_hit auth dir cache now u p dn0 hurl hu hp hl]
          refine ⟨Or.inl rfl, ?_, fun _ _ => rfl, fun _ _ _ => rfl,
            fun _ => rfl⟩
          intro h
          rcases h with h | h | h
          · exact absurd h hurl
          · exact absurd h hu
          · exact absurd h hp
        | none =>
          cases hf : findUserBindDN auth dir (getUserNamePart u) with
          | mk fst ev =>
            cases fst with
            | failure r =>
              rw [authenticate_resolver_failure auth dir cache now u p r ev
                hurl hu hp hl hf]
              refine ⟨Or.inl rfl, ?_, fun _ _ => rfl, fun _ _ _ => rfl,
                fun _ => rfl⟩
              intro h
              rcases h with h | h | h
              · exact absurd h hurl
              · exact absurd h hu
              · exact absurd h hp
            | ok dn =>
              rw [authenticate_resolved auth dir cache now u p dn ev hurl hu
                hp hl hf]
              refine ⟨?_, ?_, ?_, ?_, ?_⟩
              · by_cases hen : auth.config.cacheUserBindDNs.getD false = true
                · refine Or.inr ⟨hen, rfl, dn, ev, rfl, ?_⟩
                  show (if auth.config.cacheUserBindDNs.getD false = true then
                      Option.map (fun cc => cc.set now (getUserNamePart u) dn)
                        cache
                    else cache) =
                    Option.map (fun cc => cc.set now (getUserNamePart u) dn)
                      cache
                  rw [if_pos hen]
                · left
                  show (if auth.config.cacheUserBindDNs.getD false = true then
                      Option.map (fun cc => cc.set now (getUserNamePart u) dn)
                        cache
                    else cache) = cache
                  rw [if_neg hen]
              · intro h
                rcases h with h | h | h
                · exact absurd h hurl
                · exact absurd h hu
                · exact absurd h hp
              · intro dn' hdn'
                simp at hdn'
              · intro r ev' hf'
                simp at hf'
              · intro hdis
                show (if auth.config.cacheUserBindDNs.getD false = true then
                    Option.map (fun cc => cc.set now (getUserNamePart u) dn)
                      cache
                  else cache) = cache
                rw [if_neg (by rw [hdis]; exact Bool.false_ne_true)]

/-- C9 witness: a failed user bind against a cached DN leaves the cache
exactly as it was. -/
theorem C9_cache_frame_witness :
    (some cacheWithAlice).bind
        (fun cc => cc.get 0 (getUserNamePart "alice")) = some sampleEntry.dn ∧
      (authenticate sampleAuth userBindFailDir (some cacheWithAlice) 0
        "alice" "badPw").snd.fst = some cacheWithAlice :=
  ⟨by decide,
   (C9_cache_frame sampleAuth userBindFailDir (some cacheWithAlice) 0 "alice"
      "badPw").2.2.1 sampleEntry.dn (by decide)⟩

end ADAuth
